import Mathlib

/-!
Verification of the admission-control and metering engine of the agent-proxy
repository (`src/lambda/proxy_function.py`) against its natural-language
specification.

The shallow embedding below translates the Python source:

* the Redis counter store becomes a function `String → Option Int`
  (absent key = `none`; redis `INCR`/`DECR`/`INCRBY`/`DECRBY` create
  absent keys at 0);
* `EXPIRE` calls are modelled as no-ops: no claim concerns TTL values;
* store-communication failures and the downstream invocation failure are
  injected through explicit fault flags / a downstream function parameter,
  mirroring exactly which Python `try`/`except` block would catch them;
* the floating-point expression
  `int(prev_count * (1 - elapsed_ratio) + current_count)` is modelled by
  exact rational arithmetic with `Int.floor` (`int` truncation coincides
  with the floor on the non-negative values arising here; every theorem
  below only ever evaluates it at `prev_count = 0`, where rational and
  float agree exactly);
* Python integer division `current_time // window_size` on the
  non-negative epoch time is modelled by `Nat` division.
-/

namespace AgentProxy

/-- A snapshot of the Redis key space restricted to counter values:
`none` means the key is absent. -/
abbrev Store := String → Option Int

/-- Reading a counter the way the Python code does (`get(key) or 0`,
and redis `INCR` semantics): an absent key counts as 0. -/
def storeGetD (s : Store) (k : String) : Int :=
  (s k).getD 0

/-- Point update of the key space. -/
def storeSet (s : Store) (k : String) (v : Int) : Store :=
  fun k2 => if k2 = k then some v else s k2

/-- Redis `INCR`: increment (creating at 0), returning the post-increment
value together with the updated store. -/
def incr (s : Store) (k : String) : Int × Store :=
  (storeGetD s k + 1, storeSet s k (storeGetD s k + 1))

/-- Redis `INCRBY`. -/
def incrby (s : Store) (k : String) (amount : Int) : Int × Store :=
  (storeGetD s k + amount, storeSet s k (storeGetD s k + amount))

/-- Redis `DECR`. -/
def decr (s : Store) (k : String) : Int × Store :=
  (storeGetD s k - 1, storeSet s k (storeGetD s k - 1))

/-- Redis `DECRBY`. -/
def decrby (s : Store) (k : String) (amount : Int) : Int × Store :=
  (storeGetD s k - amount, storeSet s k (storeGetD s k - amount))

/-- The current-window counter key written by `check_rate_limit`
(line 107): `f"rate_limit:{{{api_key}}}:{current_time // window_size}"` —
note the literal braces (redis hash-tag) around the api key. -/
def rate_key (api_key : String) (bucket : Int) : String :=
  "rate_limit:\x7b" ++ api_key ++ "\x7d:" ++ toString bucket

/-- The previous-window counter key read by `check_rate_limit`
(line 125): `f"rate_limit:{api_key}:{(current_time // window_size) - 1}"` —
as written in the source, WITHOUT hash-tag braces around the api key. -/
def prev_rate_key (api_key : String) (current_time : Nat) : String :=
  "rate_limit:" ++ api_key ++ ":" ++ toString (((current_time / 60 : Nat) : Int) - 1)

/-- The tier-cache key of `get_rate_limit_for_user` (line 158). -/
def user_tier_key (api_key : String) : String :=
  "user_tier:" ++ api_key

/-- `get_rate_limit_for_user` (lines 156-168).  The tier cache is the
`tiers` parameter (redis string values).  Python's
`redis_conn.get(user_tier_key) or 'free'` treats both an absent key and
an empty string (falsy) as `'free'`; `rate_limits.get(user_tier, 10)`
falls back to 10 for any other label. -/
def get_rate_limit_for_user (tiers : String → Option String) (api_key : String) : Int :=
  let user_tier :=
    match tiers (user_tier_key api_key) with
    | none => "free"
    | some s => if s = "" then "free" else s
  if user_tier = "free" then 5
  else if user_tier = "premium" then 60
  else if user_tier = "enterprise" then 300
  else 10

/-- The weighted sliding-window estimate of line 134,
`int(prev_count * (1 - elapsed_ratio) + current_count)`, in exact
rational arithmetic. -/
def estimated_count (prev_count current_count : Int) (elapsed window_size : Nat) : Int :=
  Int.floor ((prev_count : ℚ) * (1 - (elapsed : ℚ) / (window_size : ℚ)) + (current_count : ℚ))

/-- Result dictionary of `check_rate_limit`. -/
structure RateLimitResult where
  allowed : Bool
  remaining : Int
  reset_time : Int
deriving DecidableEq

/-- The one store-error condition the handler distinguishes
(`redis.RedisError`). -/
inductive StoreErr
  | redisError
deriving DecidableEq

/-- Fault injection points inside `check_rate_limit`, one per store call:
`tierGetFails` is the `redis_conn.get` inside `get_rate_limit_for_user`
(line 104, OUTSIDE the `try`), `pipelineFails` the atomic
incr/expire pipeline (lines 110-121), `prevGetFails` the best-effort
previous-window read (line 126), `decrFails` the compensating decrement
(line 138). -/
structure GateFaults where
  tierGetFails : Bool
  pipelineFails : Bool
  prevGetFails : Bool
  decrFails : Bool
deriving DecidableEq

/-- `check_rate_limit` (lines 97-154).  The `try` block starts after the
tier lookup, so a tier-lookup fault propagates as a `StoreErr`
(`Except.error`); every fault inside the `try` is caught by the
`except Exception` handler which returns the fail-open fallback
`{'allowed': True, 'remaining': max_requests,
'reset_time': current_time + window_size}`.  A failed pipeline applies
nothing (it is atomic); a fault after the pipeline leaves the increment
in place, exactly as in the source. -/
def check_rate_limit (faults : GateFaults) (tiers : String → Option String)
    (store : Store) (api_key : String) (current_time : Nat) :
    Except StoreErr (RateLimitResult × Store) :=
  if faults.tierGetFails then Except.error StoreErr.redisError else
  let window_size : Nat := 60
  let max_requests : Int := get_rate_limit_for_user tiers api_key
  let fallback : RateLimitResult :=
    { allowed := true, remaining := max_requests,
      reset_time := (current_time : Int) + (window_size : Int) }
  if faults.pipelineFails then Except.ok (fallback, store) else
  let bucket : Int := ((current_time / window_size : Nat) : Int)
  let key := rate_key api_key bucket
  let incrRes := incr store key
  let current_count := incrRes.1
  let store1 := incrRes.2
  if faults.prevGetFails then Except.ok (fallback, store1) else
  let prev_count := storeGetD store1 (prev_rate_key api_key current_time)
  let window_start : Int := bucket * (window_size : Int)
  let est := estimated_count prev_count current_count (current_time % window_size) window_size
  if est > max_requests then
    if faults.decrFails then Except.ok (fallback, store1) else
    Except.ok ({ allowed := false, remaining := 0,
                 reset_time := window_start + (window_size : Int) },
               (decr store1 key).2)
  else
    Except.ok ({ allowed := true, remaining := max 0 (max_requests - est),
                 reset_time := window_start + (window_size : Int) }, store1)

/-- The value `check_rate_limit` compares against the cap on the
fault-free path: post-increment current count weighted with the
previous-window read (which is performed on the already-incremented
store, at `prev_rate_key`). -/
def gate_estimate (store : Store) (api_key : String) (current_time : Nat) : Int :=
  let key := rate_key api_key ((current_time / 60 : Nat) : Int)
  let current_count := storeGetD store key + 1
  let prev_count := storeGetD (storeSet store key current_count) (prev_rate_key api_key current_time)
  estimated_count prev_count current_count (current_time % 60) 60

/-- Wall-clock inputs of one invocation: `now = int(time.time())`, and the
two `datetime.utcnow().strftime` strings used by `log_usage` (their
formatting is irrelevant to every claim, so they are carried opaquely). -/
structure Clock where
  now : Nat
  date : String
  hour : String

/-- Usage-meter key `f"usage:minute:{{{api_key}}}:{current_time // 60}"`. -/
def usage_minute_key (api_key : String) (now : Nat) : String :=
  "usage:minute:\x7b" ++ api_key ++ "\x7d:" ++ toString (now / 60)

/-- Usage-meter key `f"usage:hour:{{{api_key}}}:{current_hour}"`. -/
def usage_hour_key (api_key hour : String) : String :=
  "usage:hour:\x7b" ++ api_key ++ "\x7d:" ++ hour

/-- Usage-meter key `f"usage:daily:{{{api_key}}}:{current_date}"`. -/
def usage_daily_key (api_key date : String) : String :=
  "usage:daily:\x7b" ++ api_key ++ "\x7d:" ++ date

/-- Usage-meter key `f"usage:total:{{{api_key}}}"`. -/
def usage_total_key (api_key : String) : String :=
  "usage:total:\x7b" ++ api_key ++ "\x7d"

/-- `log_usage` (lines 170-195): one atomic pipeline incrementing the
minute/hour/daily/total usage counters (expire calls modelled as no-ops). -/
def log_usage (store : Store) (api_key : String) (clk : Clock) : Store :=
  let s1 := (incr store (usage_minute_key api_key clk.now)).2
  let s2 := (incr s1 (usage_hour_key api_key clk.hour)).2
  let s3 := (incr s2 (usage_daily_key api_key clk.date)).2
  (incr s3 (usage_total_key api_key)).2

/-- Request body fields read by `invoke_bedrock_agent` (`body.get(...)`),
with `none` for an absent field. -/
structure EventBody where
  agentId : Option String
  agentAliasId : Option String
  sessionId : Option String
  inputText : Option String

/-- Python falsiness of an optional string: `None` or `''`. -/
def isFalsy : Option String → Bool
  | none => true
  | some s => s = ""

/-- Argument record of the `bedrock_agent.invoke_agent` call. -/
structure AgentCall where
  agentId : String
  agentAliasId : String
  sessionId : String
  inputText : String
deriving DecidableEq

/-- The response dictionary built by `invoke_bedrock_agent` (the
`timestamp` field, a pure wall-clock string, is not modelled). -/
structure AgentResult where
  sessionId : String
  response : String
  agentId : String
deriving DecidableEq

/-- `invoke_bedrock_agent` (lines 219-262).  The downstream collaborator
is the `downstream` parameter: `none` models `invoke_agent` raising, and
`some chunks` the completion stream's decoded chunk bytes, which the
source concatenates in arrival order.  Both the `ValueError` for missing
`agentId`/`inputText` and a downstream failure are re-raised by the
enclosing `except` as a generic `Exception`, modelled by `Except.error`.
The `AgentCall` actually passed to the downstream collaborator is
returned alongside the response so theorems can relate the two. -/
def invoke_bedrock_agent (now : Nat) (downstream : AgentCall → Option (List String))
    (body : EventBody) : Except String (AgentCall × AgentResult) :=
  let agent_alias_id := body.agentAliasId.getD "TSTALIASID"
  let session_id := body.sessionId.getD ("session-" ++ toString now)
  let input_text := body.inputText.getD ""
  if isFalsy body.agentId || input_text == "" then
    Except.error "Bedrock Agent invocation failed: agentId and inputText are required"
  else
    let call : AgentCall :=
      { agentId := body.agentId.getD "", agentAliasId := agent_alias_id,
        sessionId := session_id, inputText := input_text }
    match downstream call with
    | none => Except.error "Bedrock Agent invocation failed"
    | some chunks =>
        Except.ok (call,
          { sessionId := session_id, response := String.join chunks,
            agentId := body.agentId.getD "" })

/-- Incoming event: the two identity headers and the parsed body. -/
structure Event where
  x_api_key : Option String
  authorization : Option String
  body : EventBody

/-- `get_api_key` (lines 92-95):
`headers.get('x-api-key') or headers.get('Authorization','').replace('Bearer ', '')`.
An absent or empty `x-api-key` header (both falsy) falls through to the
stripped Authorization header. -/
def get_api_key (event : Event) : String :=
  let xk := event.x_api_key.getD ""
  if xk ≠ "" then xk
  else (event.authorization.getD "").replace "Bearer " ""

/-- Body of the HTTP response: either the serialized agent response
(status 200) or the `{'error': message}` dictionary. -/
inductive RespBody
  | ok (r : AgentResult)
  | err (msg : String)
deriving DecidableEq

/-- HTTP-style response of `lambda_handler`: status code, the two
rate-limit headers when present, and the body. -/
structure LambdaResponse where
  statusCode : Nat
  remaining_header : Option String
  reset_header : Option String
  body : RespBody
deriving DecidableEq

/-- `error_response` (lines 264-274); `rate_headers` carries the optional
`X-Rate-Limit-Remaining` / `X-Rate-Limit-Reset` pair of the 429 path. -/
def error_response (status : Nat) (message : String)
    (rate_headers : Option (String × String)) : LambdaResponse :=
  { statusCode := status,
    remaining_header := rate_headers.map Prod.fst,
    reset_header := rate_headers.map Prod.snd,
    body := RespBody.err message }

/-- Fault injection points of one handler invocation: `connectFails` is
`get_redis_client` (its `ping`) raising, `usageFails` the `log_usage`
pipeline raising; both raise `redis.RedisError` and are caught by the
handler's `except redis.RedisError` clause (503). -/
structure Faults where
  connectFails : Bool
  gate : GateFaults
  usageFails : Bool

/-- `lambda_handler` (lines 37-90), sequencing
identity → connection → `check_rate_limit` → `log_usage` →
`invoke_bedrock_agent`.  A `StoreErr` escaping `check_rate_limit`
(tier lookup) and a `log_usage`/connection fault hit
`except redis.RedisError` (503); a failing `invoke_bedrock_agent`
(generic `Exception`) hits `except Exception` (500).  The pair returned
is (response, final key space). -/
def lambda_handler (faults : Faults) (tiers : String → Option String)
    (downstream : AgentCall → Option (List String)) (clk : Clock)
    (store : Store) (event : Event) : LambdaResponse × Store :=
  let api_key := get_api_key event
  if api_key = "" then
    (error_response 401 "API Key required" none, store)
  else if faults.connectFails then
    (error_response 503 "Service temporarily unavailable" none, store)
  else
    match check_rate_limit faults.gate tiers store api_key clk.now with
    | Except.error _ =>
        (error_response 503 "Service temporarily unavailable" none, store)
    | Except.ok (rl, store1) =>
        if rl.allowed then
          if faults.usageFails then
            (error_response 503 "Service temporarily unavailable" none, store1)
          else
            let store2 := log_usage store1 api_key clk
            match invoke_bedrock_agent clk.now downstream event.body with
            | Except.error _ =>
                (error_response 500 "Internal server error" none, store2)
            | Except.ok callRes =>
                ({ statusCode := 200,
                   remaining_header := some (toString rl.remaining),
                   reset_header := some (toString rl.reset_time),
                   body := RespBody.ok callRes.2 }, store2)
        else
          (error_response 429 "Rate limit exceeded"
            (some ("0", toString rl.reset_time)), store1)

/-! ### The Fixed-Window Dual-Budget Gate, absent from `src/` -/

/-- Modelled from the spec: the token-cost estimate of spec section 4.4
("an integer estimate ... input length divided by a fixed divisor"); the
divisor 4 is fixed by Scenario B (44000 chars → `tokenCost = 11000`).
No implementation of this gate exists under `src/`. -/
def token_cost (prompt : String) : Nat :=
  prompt.length / 4

/-- Modelled from the spec: the rpm counter key of spec section 4.4,
sharing the identity hash-tag as required by the WindowKey invariant. -/
def rpm_key (api_key : String) (bucket : Int) : String :=
  "rpm:\x7b" ++ api_key ++ "\x7d:" ++ toString bucket

/-- Modelled from the spec: the tpm counter key of spec section 4.4. -/
def tpm_key (api_key : String) (bucket : Int) : String :=
  "tpm:\x7b" ++ api_key ++ "\x7d:" ++ toString bucket

/-- Outcome of the dual-budget gate. -/
inductive BudgetDecision
  | accepted
  | rateLimitExceeded
  | tokenBudgetExceeded
deriving DecidableEq

/-- Modelled from the spec: the Fixed-Window Dual-Budget Gate of spec
section 4.4, which has no implementation under `src/`.  One atomic
batch increments the rpm counter and increments the tpm counter by
`tokenCost`; afterwards `rpmAfter > RPM_LIMIT` rejects with a
request-limit error (no token rollback — the documented asymmetry),
otherwise `tpmAfter > TPM_LIMIT` issues a compensating
decrement-by-`tokenCost` on the tpm counter and rejects with a
token-limit error; otherwise the request is accepted. -/
def check_dual_budget (store : Store) (api_key : String) (bucket : Int)
    (tokenCost RPM_LIMIT TPM_LIMIT : Int) : BudgetDecision × Store :=
  let rpmRes := incr store (rpm_key api_key bucket)
  let tpmRes := incrby rpmRes.2 (tpm_key api_key bucket) tokenCost
  if rpmRes.1 > RPM_LIMIT then
    (BudgetDecision.rateLimitExceeded, tpmRes.2)
  else if tpmRes.1 > TPM_LIMIT then
    (BudgetDecision.tokenBudgetExceeded, (decrby tpmRes.2 (tpm_key api_key bucket) tokenCost).2)
  else
    (BudgetDecision.accepted, tpmRes.2)

/-! ### Shared fixtures for concrete evaluations -/

/-- The empty key space. -/
def freshStore : Store := fun _ => none

/-- A tier cache with no entry for any identity. -/
def noTiers : String → Option String := fun _ => none

/-- No fault on any gate store call. -/
def noGateFaults : GateFaults :=
  { tierGetFails := false, pipelineFails := false, prevGetFails := false, decrFails := false }

/-- No fault on any store call of the invocation. -/
def noFaults : Faults :=
  { connectFails := false, gate := noGateFaults, usageFails := false }

/-- A well-formed request body. -/
def okBody : EventBody :=
  { agentId := some "agent-1", agentAliasId := some "alias-1",
    sessionId := some "sess-1", inputText := some "hello" }

/-- A well-formed event carrying identity `k1`. -/
def okEvent : Event :=
  { x_api_key := some "k1", authorization := none, body := okBody }

/-- A wall clock 90 seconds into the epoch (minute bucket 1, 30 s
elapsed in the bucket). -/
def clk90 : Clock := { now := 90, date := "2026-10-12", hour := "2026-10-12:10" }

/-- A downstream collaborator that answers with two chunks. -/
def downstreamOk : AgentCall → Option (List String) := fun _ => some ["Hello", " world"]

/-- A downstream collaborator that always raises. -/
def downstreamFail : AgentCall → Option (List String) := fun _ => none

/-- One sequential request through the fault-free sliding-window gate,
appending its decision to an accumulator (driver for Scenario A). -/
def gate_step (tiers : String → Option String) (api_key : String) (t : Nat)
    (acc : List RateLimitResult × Store) : List RateLimitResult × Store :=
  match check_rate_limit noGateFaults tiers acc.2 api_key t with
  | Except.error _ => acc
  | Except.ok rs => (acc.1 ++ [rs.1], rs.2)

/-! ### Store and key lemmas -/

theorem storeGetD_set_self (s : Store) (k : String) (v : Int) :
    storeGetD (storeSet s k v) k = v := by
  simp [storeGetD, storeSet]

theorem storeGetD_set_ne (s : Store) (k k2 : String) (v : Int) (h : k2 ≠ k) :
    storeGetD (storeSet s k v) k2 = storeGetD s k2 := by
  simp [storeGetD, storeSet, h]

theorem string_ne_of_index {s t : String} (i : Nat) {a b : Char}
    (hs : s.data[i]? = some a) (ht : t.data[i]? = some b) (hab : a ≠ b) :
    s ≠ t := by
  intro h
  subst h
  rw [hs] at ht
  exact hab (Option.some.inj ht)

theorem rate_key_ne_usage_minute (k q : String) (b : Int) (n : Nat) :
    rate_key k b ≠ usage_minute_key q n :=
  string_ne_of_index 0 (a := 'r') (b := 'u') rfl rfl (by decide)

theorem rate_key_ne_usage_hour (k q h : String) (b : Int) :
    rate_key k b ≠ usage_hour_key q h :=
  string_ne_of_index 0 (a := 'r') (b := 'u') rfl rfl (by decide)

theorem rate_key_ne_usage_daily (k q d : String) (b : Int) :
    rate_key k b ≠ usage_daily_key q d :=
  string_ne_of_index 0 (a := 'r') (b := 'u') rfl rfl (by decide)

theorem rate_key_ne_usage_total (k q : String) (b : Int) :
    rate_key k b ≠ usage_total_key q :=
  string_ne_of_index 0 (a := 'r') (b := 'u') rfl rfl (by decide)

theorem usage_total_ne_usage_minute (k q : String) (n : Nat) :
    usage_total_key k ≠ usage_minute_key q n :=
  string_ne_of_index 6 (a := 't') (b := 'm') rfl rfl (by decide)

theorem usage_total_ne_usage_hour (k q h : String) :
    usage_total_key k ≠ usage_hour_key q h :=
  string_ne_of_index 6 (a := 't') (b := 'h') rfl rfl (by decide)

theorem usage_total_ne_usage_daily (k q d : String) :
    usage_total_key k ≠ usage_daily_key q d :=
  string_ne_of_index 6 (a := 't') (b := 'd') rfl rfl (by decide)

theorem tpm_key_ne_rpm_key (k q : String) (b c : Int) :
    tpm_key k b ≠ rpm_key q c :=
  string_ne_of_index 0 (a := 't') (b := 'r') rfl rfl (by decide)

/-- A non-zero previous-window weight never arises: the estimate with a
zero previous count is the bare post-increment count. -/
theorem estimated_count_prev_zero (c : Int) (e w : Nat) :
    estimated_count 0 c e w = c := by
  simp [estimated_count]

/-! ### Behaviour of `log_usage` on foreign keys and on the total -/

theorem log_usage_other (store : Store) (k : String) (clk : Clock) (q : String)
    (h1 : q ≠ usage_minute_key k clk.now) (h2 : q ≠ usage_hour_key k clk.hour)
    (h3 : q ≠ usage_daily_key k clk.date) (h4 : q ≠ usage_total_key k) :
    storeGetD (log_usage store k clk) q = storeGetD store q := by
  simp only [log_usage, incr]
  rw [storeGetD_set_ne _ _ _ _ h4, storeGetD_set_ne _ _ _ _ h3,
      storeGetD_set_ne _ _ _ _ h2, storeGetD_set_ne _ _ _ _ h1]

theorem log_usage_total (store : Store) (k : String) (clk : Clock) :
    storeGetD (log_usage store k clk) (usage_total_key k) =
      storeGetD store (usage_total_key k) + 1 := by
  simp only [log_usage, incr]
  rw [storeGetD_set_self,
      storeGetD_set_ne _ _ _ _ (usage_total_ne_usage_daily k k clk.date),
      storeGetD_set_ne _ _ _ _ (usage_total_ne_usage_hour k k clk.hour),
      storeGetD_set_ne _ _ _ _ (usage_total_ne_usage_minute k k clk.now)]

/-! ### Shape of the fault-free sliding-window gate -/

theorem check_rate_limit_noFaults_eq (tiers : String → Option String)
    (store : Store) (k : String) (t : Nat) :
    check_rate_limit noGateFaults tiers store k t =
      (if gate_estimate store k t > get_rate_limit_for_user tiers k then
        Except.ok ({ allowed := false, remaining := 0,
                     reset_time := ((t / 60 : Nat) : Int) * 60 + 60 },
          storeSet (storeSet store (rate_key k ((t / 60 : Nat) : Int))
              (storeGetD store (rate_key k ((t / 60 : Nat) : Int)) + 1))
            (rate_key k ((t / 60 : Nat) : Int))
            (storeGetD store (rate_key k ((t / 60 : Nat) : Int))))
      else
        Except.ok ({ allowed := true,
                     remaining := max 0 (get_rate_limit_for_user tiers k - gate_estimate store k t),
                     reset_time := ((t / 60 : Nat) : Int) * 60 + 60 },
          storeSet store (rate_key k ((t / 60 : Nat) : Int))
            (storeGetD store (rate_key k ((t / 60 : Nat) : Int)) + 1))) := by
  simp only [check_rate_limit, noGateFaults, gate_estimate, incr, decr,
    Bool.false_eq_true, if_false, storeGetD_set_self]
  norm_num

theorem check_rate_limit_noFaults_allowed (tiers : String → Option String)
    (store : Store) (k : String) (t : Nat)
    (h : gate_estimate store k t ≤ get_rate_limit_for_user tiers k) :
    check_rate_limit noGateFaults tiers store k t =
      Except.ok ({ allowed := true,
                   remaining := max 0 (get_rate_limit_for_user tiers k - gate_estimate store k t),
                   reset_time := ((t / 60 : Nat) : Int) * 60 + 60 },
        storeSet store (rate_key k ((t / 60 : Nat) : Int))
          (storeGetD store (rate_key k ((t / 60 : Nat) : Int)) + 1)) := by
  rw [check_rate_limit_noFaults_eq, if_neg (not_lt.mpr h)]

theorem check_rate_limit_noFaults_rejected (tiers : String → Option String)
    (store : Store) (k : String) (t : Nat)
    (h : get_rate_limit_for_user tiers k < gate_estimate store k t) :
    check_rate_limit noGateFaults tiers store k t =
      Except.ok ({ allowed := false, remaining := 0,
                   reset_time := ((t / 60 : Nat) : Int) * 60 + 60 },
        storeSet (storeSet store (rate_key k ((t / 60 : Nat) : Int))
            (storeGetD store (rate_key k ((t / 60 : Nat) : Int)) + 1))
          (rate_key k ((t / 60 : Nat) : Int))
          (storeGetD store (rate_key k ((t / 60 : Nat) : Int)))) := by
  rw [check_rate_limit_noFaults_eq, if_pos h]

/-! ### Concrete evaluation of the gate for identity `k1` at `t = 90` -/

theorem rate_key_k1_90 : rate_key "k1" (((90 : Nat) / 60 : Nat) : Int) = "rate_limit:{k1}:1" := rfl

theorem prev_rate_key_k1_90 : prev_rate_key "k1" 90 = "rate_limit:k1:0" := rfl

theorem gate_estimate_k1_90 (s : Store) (h : s "rate_limit:k1:0" = none) :
    gate_estimate s "k1" 90 = storeGetD s "rate_limit:{k1}:1" + 1 := by
  simp only [gate_estimate, rate_key_k1_90, prev_rate_key_k1_90]
  rw [storeGetD_set_ne _ _ _ _ (by decide)]
  rw [show storeGetD s "rate_limit:k1:0" = 0 from by simp [storeGetD, h]]
  rw [estimated_count_prev_zero]

theorem check_k1_90_allowed (s : Store) (v : Int)
    (hv : storeGetD s "rate_limit:{k1}:1" = v) (hprev : s "rate_limit:k1:0" = none)
    (hle : v + 1 ≤ 5) :
    check_rate_limit noGateFaults noTiers s "k1" 90 =
      Except.ok ({ allowed := true, remaining := 4 - v, reset_time := 120 },
        storeSet s "rate_limit:{k1}:1" (v + 1)) := by
  have hg : gate_estimate s "k1" 90 = v + 1 := by
    rw [gate_estimate_k1_90 s hprev, hv]
  have hcap : get_rate_limit_for_user noTiers "k1" = 5 := rfl
  rw [check_rate_limit_noFaults_allowed _ _ _ _ (by rw [hg, hcap]; exact hle)]
  rw [hg, hcap, rate_key_k1_90, hv]
  have : max 0 (5 - (v + 1)) = 4 - v := by omega
  rw [this]
  norm_num

theorem check_k1_90_rejected (s : Store) (v : Int)
    (hv : storeGetD s "rate_limit:{k1}:1" = v) (hprev : s "rate_limit:k1:0" = none)
    (hgt : 5 < v + 1) :
    check_rate_limit noGateFaults noTiers s "k1" 90 =
      Except.ok ({ allowed := false, remaining := 0, reset_time := 120 },
        storeSet (storeSet s "rate_limit:{k1}:1" (v + 1)) "rate_limit:{k1}:1" v) := by
  have hg : gate_estimate s "k1" 90 = v + 1 := by
    rw [gate_estimate_k1_90 s hprev, hv]
  have hcap : get_rate_limit_for_user noTiers "k1" = 5 := rfl
  rw [check_rate_limit_noFaults_rejected _ _ _ _ (by rw [hg, hcap]; exact hgt)]
  rw [rate_key_k1_90, hv]
  norm_num

theorem storeSet_set_self (s : Store) (k : String) (a b : Int) :
    storeSet (storeSet s k a) k b = storeSet s k b := by
  funext k2
  by_cases h : k2 = k <;> simp [storeSet, h]

/-! ### Claim C2 -/

/-- Claim C2 (code bug): the previous-window key read in step 3 of
`check_rate_limit` is NOT the key that the increment of step 2 would have
written one bucket earlier: at identity `k1` and `current_time = 120`
(bucket 2), the code reads `rate_limit:k1:1` — missing the hash-tag
braces around the identity — while the increment one bucket earlier
wrote `rate_limit:{k1}:1`.  Consequently the previous-window count is
read from a key that is never written: even with the previous-window
counter at 3 and `elapsedRatio = 0` (full weight), the gate's estimate
is 1, not 4. -/
theorem C2_prev_key_mismatch :
    prev_rate_key "k1" 120 = "rate_limit:k1:1" ∧
    rate_key "k1" 1 = "rate_limit:{k1}:1" ∧
    prev_rate_key "k1" 120 ≠ rate_key "k1" 1 ∧
    gate_estimate (storeSet freshStore "rate_limit:{k1}:1" 3) "k1" 120 = 1 := by
  refine ⟨rfl, rfl, by decide, ?_⟩
  have hk : rate_key "k1" (((120 : Nat) / 60 : Nat) : Int) = "rate_limit:{k1}:2" := rfl
  have hp : prev_rate_key "k1" 120 = "rate_limit:k1:1" := rfl
  simp only [gate_estimate, hk, hp]
  rw [storeGetD_set_ne _ _ _ _ (by decide), storeGetD_set_ne _ _ _ _ (by decide),
      storeGetD_set_ne _ _ _ _ (by decide)]
  rw [show storeGetD freshStore "rate_limit:k1:1" = 0 from rfl,
      show storeGetD freshStore "rate_limit:{k1}:2" = 0 from rfl]
  rw [estimated_count_prev_zero]
  norm_num

/-! ### Claim C8 -/

/-- Claim C8 (counterexample): an empty-string tier label — a label that
is neither `free`, `premium` nor `enterprise` — does not map to the
fallback cap 10: Python's `or 'free'` treats the empty string as falsy,
so the cap is 5. -/
theorem C8_counterexample :
    get_rate_limit_for_user (fun _ => some "") "k1" = 5 ∧
    get_rate_limit_for_user (fun _ => some "") "k1" ≠ 10 := by
  constructor <;> decide

/-- Claim C8 (amended): the tier resolver maps an absent label to
`free`; `free` → 5, `premium` → 60, `enterprise` → 300; any other
NON-EMPTY label → 10 (a fallback distinct from the `free` cap); an
empty-string label is treated like an absent one (→ `free` → 5). -/
theorem C8_amended (tiers : String → Option String) (k : String) :
    (tiers (user_tier_key k) = none → get_rate_limit_for_user tiers k = 5) ∧
    (tiers (user_tier_key k) = some "" → get_rate_limit_for_user tiers k = 5) ∧
    (tiers (user_tier_key k) = some "free" → get_rate_limit_for_user tiers k = 5) ∧
    (tiers (user_tier_key k) = some "premium" → get_rate_limit_for_user tiers k = 60) ∧
    (tiers (user_tier_key k) = some "enterprise" → get_rate_limit_for_user tiers k = 300) ∧
    (∀ l : String, tiers (user_tier_key k) = some l → l ≠ "" → l ≠ "free" →
      l ≠ "premium" → l ≠ "enterprise" → get_rate_limit_for_user tiers k = 10) := by
  refine ⟨fun h => by simp [get_rate_limit_for_user, h],
          fun h => by simp [get_rate_limit_for_user, h],
          fun h => by simp [get_rate_limit_for_user, h],
          fun h => by simp [get_rate_limit_for_user, h]; decide,
          fun h => by simp [get_rate_limit_for_user, h]; decide,
          fun l h h1 h2 h3 h4 => by
            simp [get_rate_limit_for_user, h, h1, h2, h3, h4]⟩

/-- Witness for the amended Claim C8 at concrete inputs: no cached label
gives cap 5, and the unrecognized label `gold` gives the fallback 10. -/
theorem C8_amended_witness :
    get_rate_limit_for_user noTiers "k1" = 5 ∧
    get_rate_limit_for_user (fun _ => some "gold") "k1" = 10 :=
  ⟨(C8_amended noTiers "k1").1 rfl,
   (C8_amended (fun _ => some "gold") "k1").2.2.2.2.2 "gold" rfl
     (by decide) (by decide) (by decide) (by decide)⟩

/-! ### Claim C6 -/

/-- The gate-fault configuration in which only the tier lookup
(line 104, outside the `try` block) fails. -/
def tierFault : GateFaults :=
  { tierGetFails := true, pipelineFails := false, prevGetFails := false, decrFails := false }

/-- The gate-fault configuration in which only the atomic
increment/expire pipeline fails. -/
def pipelineFault : GateFaults :=
  { tierGetFails := false, pipelineFails := true, prevGetFails := false, decrFails := false }

/-- Claim C6 (counterexample): a store error during the sliding-window
gate's sequence does not always fail open: the tier-cap lookup of step 5
happens before the `try` block, so its failure propagates out of
`check_rate_limit` as a store error and the handler answers 503 —
the request is rejected, not allowed with `remaining = cap`. -/
theorem C6_counterexample :
    check_rate_limit tierFault noTiers freshStore "k1" 90 =
      Except.error StoreErr.redisError ∧
    (lambda_handler { connectFails := false, gate := tierFault, usageFails := false }
        noTiers downstreamOk clk90 freshStore okEvent).1 =
      error_response 503 "Service temporarily unavailable" none := by
  exact ⟨rfl, rfl⟩

/-- The gate-fault configuration in which only the best-effort
previous-window read fails. -/
def prevFault : GateFaults :=
  { tierGetFails := false, pipelineFails := false, prevGetFails := true, decrFails := false }

/-- The gate-fault configuration in which only the compensating
rejection decrement fails. -/
def decrFault : GateFaults :=
  { tierGetFails := false, pipelineFails := false, prevGetFails := false, decrFails := true }

/-- Claim C6 (amended): a store error inside the gate's `try` block is
caught and the gate fails open with `allowed = true` and `remaining`
equal to the caller's tier cap (reset time `now + 60`).  This holds for
each store operation inside the `try`: the atomic increment/expire
pipeline (the store stays untouched, the pipeline being atomic), the
best-effort previous-window read (the already-applied increment stays in
place), and the rejection decrement, which is reached when the estimate
exceeds the cap (again the increment stays in place).  By contrast, a
failure of the tier-cap lookup — performed inside `check_rate_limit`
before the `try` block — escapes the gate as a store error, and the
handler answers 503, just as it does when the store is unreachable at
connection time. -/
theorem C6_amended :
    (∀ (tiers : String → Option String) (store : Store) (k : String) (t : Nat)
       (f : GateFaults), f.tierGetFails = false → f.pipelineFails = true →
       check_rate_limit f tiers store k t =
         Except.ok ({ allowed := true, remaining := get_rate_limit_for_user tiers k,
                      reset_time := (t : Int) + 60 }, store)) ∧
    (∀ (tiers : String → Option String) (store : Store) (k : String) (t : Nat)
       (f : GateFaults), f.tierGetFails = false → f.pipelineFails = false →
       f.prevGetFails = true →
       check_rate_limit f tiers store k t =
         Except.ok ({ allowed := true, remaining := get_rate_limit_for_user tiers k,
                      reset_time := (t : Int) + 60 },
           storeSet store (rate_key k ((t / 60 : Nat) : Int))
             (storeGetD store (rate_key k ((t / 60 : Nat) : Int)) + 1))) ∧
    (∀ (tiers : String → Option String) (store : Store) (k : String) (t : Nat)
       (f : GateFaults), f.tierGetFails = false → f.pipelineFails = false →
       f.prevGetFails = false → f.decrFails = true →
       get_rate_limit_for_user tiers k < gate_estimate store k t →
       check_rate_limit f tiers store k t =
         Except.ok ({ allowed := true, remaining := get_rate_limit_for_user tiers k,
                      reset_time := (t : Int) + 60 },
           storeSet store (rate_key k ((t / 60 : Nat) : Int))
             (storeGetD store (rate_key k ((t / 60 : Nat) : Int)) + 1))) ∧
    (∀ (tiers : String → Option String) (store : Store) (k : String) (t : Nat)
       (f : GateFaults), f.tierGetFails = true →
       check_rate_limit f tiers store k t = Except.error StoreErr.redisError) ∧
    (∀ (fa : Faults) (tiers : String → Option String)
       (downstream : AgentCall → Option (List String)) (clk : Clock)
       (store : Store) (event : Event),
       get_api_key event ≠ "" →
       (fa.connectFails = true ∨ (fa.connectFails = false ∧ fa.gate.tierGetFails = true)) →
       lambda_handler fa tiers downstream clk store event =
         (error_response 503 "Service temporarily unavailable" none, store)) := by
  refine ⟨?_, ?_, ?_, ?_, ?_⟩
  · intro tiers store k t f h1 h2
    simp [check_rate_limit, h1, h2]
  · intro tiers store k t f h1 h2 h3
    simp [check_rate_limit, incr, h1, h2, h3]
  · intro tiers store k t f h1 h2 h3 h4 hgt
    have hgt2 := hgt
    simp only [gate_estimate] at hgt2
    simp at hgt2
    simp [check_rate_limit, incr, h1, h2, h3, h4, hgt2]
  · intro tiers store k t f h1
    simp [check_rate_limit, h1]
  · intro fa tiers downstream clk store event hkey hc
    rcases hc with hc | ⟨hc1, hc2⟩
    · simp [lambda_handler, if_neg hkey, hc]
    · simp [lambda_handler, check_rate_limit, if_neg hkey, hc1, hc2]

/-- Witness for the amended Claim C6 at identity `k1`, cap 5 (no cached
tier), time 90: a pipeline fault, a previous-window-read fault, and a
rejection-decrement fault (on a store whose counter already stands at 5,
so the sixth request's estimate 6 exceeds the cap) each fail open with
`remaining = 5`; a tier-lookup fault escapes as a store error; and both
an unreachable store at connection time and the escaped tier-lookup
error make the handler answer 503. -/
theorem C6_amended_witness :
    check_rate_limit pipelineFault noTiers freshStore "k1" 90 =
      Except.ok ({ allowed := true, remaining := 5, reset_time := 150 }, freshStore) ∧
    check_rate_limit prevFault noTiers freshStore "k1" 90 =
      Except.ok ({ allowed := true, remaining := 5, reset_time := 150 },
        storeSet freshStore (rate_key "k1" (((90 : Nat) / 60 : Nat) : Int))
          (storeGetD freshStore (rate_key "k1" (((90 : Nat) / 60 : Nat) : Int)) + 1)) ∧
    check_rate_limit decrFault noTiers (storeSet freshStore "rate_limit:{k1}:1" 5) "k1" 90 =
      Except.ok ({ allowed := true, remaining := 5, reset_time := 150 },
        storeSet (storeSet freshStore "rate_limit:{k1}:1" 5)
          (rate_key "k1" (((90 : Nat) / 60 : Nat) : Int))
          (storeGetD (storeSet freshStore "rate_limit:{k1}:1" 5)
            (rate_key "k1" (((90 : Nat) / 60 : Nat) : Int)) + 1)) ∧
    check_rate_limit tierFault noTiers freshStore "k1" 90 =
      Except.error StoreErr.redisError ∧
    lambda_handler { connectFails := true, gate := noGateFaults, usageFails := false }
        noTiers downstreamOk clk90 freshStore okEvent =
      (error_response 503 "Service temporarily unavailable" none, freshStore) ∧
    lambda_handler { connectFails := false, gate := tierFault, usageFails := false }
        noTiers downstreamOk clk90 freshStore okEvent =
      (error_response 503 "Service temporarily unavailable" none, freshStore) :=
  ⟨C6_amended.1 noTiers freshStore "k1" 90 pipelineFault rfl rfl,
   C6_amended.2.1 noTiers freshStore "k1" 90 prevFault rfl rfl rfl,
   C6_amended.2.2.1 noTiers (storeSet freshStore "rate_limit:{k1}:1" 5) "k1" 90 decrFault
     rfl rfl rfl rfl
     (by rw [gate_estimate_k1_90 _ rfl, storeGetD_set_self]; decide),
   C6_amended.2.2.2.1 noTiers freshStore "k1" 90 tierFault rfl,
   C6_amended.2.2.2.2 { connectFails := true, gate := noGateFaults, usageFails := false }
     noTiers downstreamOk clk90 freshStore okEvent (by decide) (Or.inl rfl),
   C6_amended.2.2.2.2 { connectFails := false, gate := tierFault, usageFails := false }
     noTiers downstreamOk clk90 freshStore okEvent (by decide) (Or.inr ⟨rfl, rfl⟩)⟩

/-! ### Claim C7 -/

/-- Claim C7 (Scenario A): identity `k1`, no cached tier (cap 5), no
counter in the current or previous window; six sequential requests
within the same minute are decided `allowed` with remaining
4, 3, 2, 1, 0 for the first five, and the sixth is rejected with
remaining 0 (all with reset time 120, the end of the bucket). -/
theorem C7_scenario_a :
    (gate_step noTiers "k1" 90 (gate_step noTiers "k1" 90 (gate_step noTiers "k1" 90
      (gate_step noTiers "k1" 90 (gate_step noTiers "k1" 90 (gate_step noTiers "k1" 90
        ([], freshStore))))))).1 =
      [{ allowed := true, remaining := 4, reset_time := 120 },
       { allowed := true, remaining := 3, reset_time := 120 },
       { allowed := true, remaining := 2, reset_time := 120 },
       { allowed := true, remaining := 1, reset_time := 120 },
       { allowed := true, remaining := 0, reset_time := 120 },
       { allowed := false, remaining := 0, reset_time := 120 }] := by
  have e1 : gate_step noTiers "k1" 90 ([], freshStore) =
      ([{ allowed := true, remaining := 4, reset_time := 120 }],
       storeSet freshStore "rate_limit:{k1}:1" 1) := by
    simp [gate_step, check_k1_90_allowed freshStore 0 rfl rfl (by norm_num)]
  have e2 : gate_step noTiers "k1" 90
      ([{ allowed := true, remaining := 4, reset_time := 120 }],
       storeSet freshStore "rate_limit:{k1}:1" 1) =
      ([{ allowed := true, remaining := 4, reset_time := 120 },
        { allowed := true, remaining := 3, reset_time := 120 }],
       storeSet freshStore "rate_limit:{k1}:1" 2) := by
    simp [gate_step, storeSet_set_self,
      check_k1_90_allowed (storeSet freshStore "rate_limit:{k1}:1" 1) 1
        (by rw [storeGetD_set_self]) rfl (by norm_num)]
  have e3 : gate_step noTiers "k1" 90
      ([{ allowed := true, remaining := 4, reset_time := 120 },
        { allowed := true, remaining := 3, reset_time := 120 }],
       storeSet freshStore "rate_limit:{k1}:1" 2) =
      ([{ allowed := true, remaining := 4, reset_time := 120 },
        { allowed := true, remaining := 3, reset_time := 120 },
        { allowed := true, remaining := 2, reset_time := 120 }],
       storeSet freshStore "rate_limit:{k1}:1" 3) := by
    simp [gate_step, storeSet_set_self,
      check_k1_90_allowed (storeSet freshStore "rate_limit:{k1}:1" 2) 2
        (by rw [storeGetD_set_self]) rfl (by norm_num)]
  have e4 : gate_step noTiers "k1" 90
      ([{ allowed := true, remaining := 4, reset_time := 120 },
        { allowed := true, remaining := 3, reset_time := 120 },
        { allowed := true, remaining := 2, reset_time := 120 }],
       storeSet freshStore "rate_limit:{k1}:1" 3) =
      ([{ allowed := true, remaining := 4, reset_time := 120 },
        { allowed := true, remaining := 3, reset_time := 120 },
        { allowed := true, remaining := 2, reset_time := 120 },
        { allowed := true, remaining := 1, reset_time := 120 }],
       storeSet freshStore "rate_limit:{k1}:1" 4) := by
    simp [gate_step, storeSet_set_self,
      check_k1_90_allowed (storeSet freshStore "rate_limit:{k1}:1" 3) 3
        (by rw [storeGetD_set_self]) rfl (by norm_num)]
  have e5 : gate_step noTiers "k1" 90
      ([{ allowed := true, remaining := 4, reset_time := 120 },
        { allowed := true, remaining := 3, reset_time := 120 },
        { allowed := true, remaining := 2, reset_time := 120 },
        { allowed := true, remaining := 1, reset_time := 120 }],
       storeSet freshStore "rate_limit:{k1}:1" 4) =
      ([{ allowed := true, remaining := 4, reset_time := 120 },
        { allowed := true, remaining := 3, reset_time := 120 },
        { allowed := true, remaining := 2, reset_time := 120 },
        { allowed := true, remaining := 1, reset_time := 120 },
        { allowed := true, remaining := 0, reset_time := 120 }],
       storeSet freshStore "rate_limit:{k1}:1" 5) := by
    simp [gate_step, storeSet_set_self,
      check_k1_90_allowed (storeSet freshStore "rate_limit:{k1}:1" 4) 4
        (by rw [storeGetD_set_self]) rfl (by norm_num)]
  have e6 : gate_step noTiers "k1" 90
      ([{ allowed := true, remaining := 4, reset_time := 120 },
        { allowed := true, remaining := 3, reset_time := 120 },
        { allowed := true, remaining := 2, reset_time := 120 },
        { allowed := true, remaining := 1, reset_time := 120 },
        { allowed := true, remaining := 0, reset_time := 120 }],
       storeSet freshStore "rate_limit:{k1}:1" 5) =
      ([{ allowed := true, remaining := 4, reset_time := 120 },
        { allowed := true, remaining := 3, reset_time := 120 },
        { allowed := true, remaining := 2, reset_time := 120 },
        { allowed := true, remaining := 1, reset_time := 120 },
        { allowed := true, remaining := 0, reset_time := 120 },
        { allowed := false, remaining := 0, reset_time := 120 }],
       storeSet freshStore "rate_limit:{k1}:1" 5) := by
    simp [gate_step, storeSet_set_self,
      check_k1_90_rejected (storeSet freshStore "rate_limit:{k1}:1" 5) 5
        (by rw [storeGetD_set_self]) rfl (by norm_num)]
  rw [e1, e2, e3, e4, e5, e6]

/-! ### Shape of `lambda_handler` runs on the main paths -/

/-- The handler-fault configuration in which only the `log_usage`
pipeline fails. -/
def usageFault : Faults :=
  { connectFails := false, gate := noGateFaults, usageFails := true }

/-- The gate estimate of the run computed once for the `okEvent`/`clk90`
fixtures: one fresh request counts 1. -/
theorem gate_estimate_k1_90_fresh :
    gate_estimate freshStore "k1" 90 = 1 := by
  rw [gate_estimate_k1_90 freshStore rfl]
  decide

theorem lambda_handler_downstream_error (tiers : String → Option String)
    (downstream : AgentCall → Option (List String)) (clk : Clock)
    (store : Store) (event : Event) (m : String)
    (hkey : get_api_key event ≠ "")
    (hallow : gate_estimate store (get_api_key event) clk.now ≤
      get_rate_limit_for_user tiers (get_api_key event))
    (hfail : invoke_bedrock_agent clk.now downstream event.body = Except.error m) :
    lambda_handler noFaults tiers downstream clk store event =
      (error_response 500 "Internal server error" none,
       log_usage
         (storeSet store (rate_key (get_api_key event) ((clk.now / 60 : Nat) : Int))
           (storeGetD store (rate_key (get_api_key event) ((clk.now / 60 : Nat) : Int)) + 1))
         (get_api_key event) clk) := by
  have hg := check_rate_limit_noFaults_allowed tiers store (get_api_key event) clk.now hallow
  simp [lambda_handler, noFaults, if_neg hkey, hg, hfail]

theorem lambda_handler_usage_fault (tiers : String → Option String)
    (downstream : AgentCall → Option (List String)) (clk : Clock)
    (store : Store) (event : Event)
    (hkey : get_api_key event ≠ "")
    (hallow : gate_estimate store (get_api_key event) clk.now ≤
      get_rate_limit_for_user tiers (get_api_key event)) :
    lambda_handler usageFault tiers downstream clk store event =
      (error_response 503 "Service temporarily unavailable" none,
       storeSet store (rate_key (get_api_key event) ((clk.now / 60 : Nat) : Int))
         (storeGetD store (rate_key (get_api_key event) ((clk.now / 60 : Nat) : Int)) + 1)) := by
  have hg := check_rate_limit_noFaults_allowed tiers store (get_api_key event) clk.now hallow
  simp [lambda_handler, usageFault, if_neg hkey, hg]

theorem lambda_handler_success (tiers : String → Option String)
    (downstream : AgentCall → Option (List String)) (clk : Clock)
    (store : Store) (event : Event) (c : AgentCall) (r : AgentResult)
    (hkey : get_api_key event ≠ "")
    (hallow : gate_estimate store (get_api_key event) clk.now ≤
      get_rate_limit_for_user tiers (get_api_key event))
    (hok : invoke_bedrock_agent clk.now downstream event.body = Except.ok (c, r)) :
    lambda_handler noFaults tiers downstream clk store event =
      ({ statusCode := 200,
         remaining_header := some (toString (max 0
           (get_rate_limit_for_user tiers (get_api_key event) -
             gate_estimate store (get_api_key event) clk.now))),
         reset_header := some (toString (((clk.now / 60 : Nat) : Int) * 60 + 60)),
         body := RespBody.ok r },
       log_usage
         (storeSet store (rate_key (get_api_key event) ((clk.now / 60 : Nat) : Int))
           (storeGetD store (rate_key (get_api_key event) ((clk.now / 60 : Nat) : Int)) + 1))
         (get_api_key event) clk) := by
  have hg := check_rate_limit_noFaults_allowed tiers store (get_api_key event) clk.now hallow
  simp [lambda_handler, noFaults, if_neg hkey, hg, hok]

/-! ### Claim C1 -/

/-- Claim C1 (counterexample): identity `k1` (cap 5), fresh store, valid
body, downstream invocation fails.  The caller does receive the
500-class response, but no compensating decrement happens — the
sliding-window counter stands at 1 instead of its pre-request value 0 —
and the Usage Meter WAS invoked (the total-usage counter stands at 1),
because `log_usage` runs before the downstream call. -/
theorem C1_counterexample :
    (lambda_handler noFaults noTiers downstreamFail clk90 freshStore okEvent).1 =
      error_response 500 "Internal server error" none ∧
    storeGetD (lambda_handler noFaults noTiers downstreamFail clk90 freshStore okEvent).2
      (rate_key "k1" 1) = 1 ∧
    storeGetD (lambda_handler noFaults noTiers downstreamFail clk90 freshStore okEvent).2
      (usage_total_key "k1") = 1 := by
  rw [lambda_handler_downstream_error noTiers downstreamFail clk90 freshStore okEvent
    "Bedrock Agent invocation failed" (by decide)
    (by rw [show get_api_key okEvent = "k1" from rfl, show clk90.now = 90 from rfl,
            gate_estimate_k1_90_fresh]; decide)
    rfl]
  rw [show get_api_key okEvent = "k1" from rfl,
      show ((clk90.now / 60 : Nat) : Int) = 1 from rfl]
  refine ⟨rfl, ?_, ?_⟩
  · rw [log_usage_other _ _ _ _ (rate_key_ne_usage_minute _ _ _ _)
      (rate_key_ne_usage_hour _ _ _ _) (rate_key_ne_usage_daily _ _ _ _)
      (rate_key_ne_usage_total _ _ _), storeGetD_set_self]
    decide
  · rw [log_usage_total,
        storeGetD_set_ne _ _ _ _ (Ne.symm (rate_key_ne_usage_total "k1" "k1" 1))]
    decide

/-- Claim C1 (amended): when admission succeeded and the downstream
invocation fails, the handler returns the 500-class response, but it
issues NO compensating decrement — the sliding-window counter keeps the
admission increment (post-state = pre-state + 1) — and the Usage Meter
has already been invoked before the downstream call (the total-usage
counter also ends at pre-state + 1). -/
theorem C1_amended (tiers : String → Option String)
    (downstream : AgentCall → Option (List String)) (clk : Clock)
    (store : Store) (event : Event) (m : String)
    (hkey : get_api_key event ≠ "")
    (hallow : gate_estimate store (get_api_key event) clk.now ≤
      get_rate_limit_for_user tiers (get_api_key event))
    (hfail : invoke_bedrock_agent clk.now downstream event.body = Except.error m) :
    (lambda_handler noFaults tiers downstream clk store event).1 =
      error_response 500 "Internal server error" none ∧
    storeGetD (lambda_handler noFaults tiers downstream clk store event).2
        (rate_key (get_api_key event) ((clk.now / 60 : Nat) : Int)) =
      storeGetD store (rate_key (get_api_key event) ((clk.now / 60 : Nat) : Int)) + 1 ∧
    storeGetD (lambda_handler noFaults tiers downstream clk store event).2
        (usage_total_key (get_api_key event)) =
      storeGetD store (usage_total_key (get_api_key event)) + 1 := by
  rw [lambda_handler_downstream_error tiers downstream clk store event m hkey hallow hfail]
  refine ⟨rfl, ?_, ?_⟩
  · rw [log_usage_other _ _ _ _ (rate_key_ne_usage_minute _ _ _ _)
      (rate_key_ne_usage_hour _ _ _ _) (rate_key_ne_usage_daily _ _ _ _)
      (rate_key_ne_usage_total _ _ _), storeGetD_set_self]
  · rw [log_usage_total,
        storeGetD_set_ne _ _ _ _
          (Ne.symm (rate_key_ne_usage_total (get_api_key event) (get_api_key event)
            ((clk.now / 60 : Nat) : Int)))]

/-- Witness for the amended Claim C1 at the concrete fixtures (identity
`k1`, cap 5, fresh store, failing downstream). -/
theorem C1_amended_witness :
    (lambda_handler noFaults noTiers downstreamFail clk90 freshStore okEvent).1 =
      error_response 500 "Internal server error" none ∧
    storeGetD (lambda_handler noFaults noTiers downstreamFail clk90 freshStore okEvent).2
        (rate_key (get_api_key okEvent) ((clk90.now / 60 : Nat) : Int)) =
      storeGetD freshStore (rate_key (get_api_key okEvent) ((clk90.now / 60 : Nat) : Int)) + 1 ∧
    storeGetD (lambda_handler noFaults noTiers downstreamFail clk90 freshStore okEvent).2
        (usage_total_key (get_api_key okEvent)) =
      storeGetD freshStore (usage_total_key (get_api_key okEvent)) + 1 :=
  C1_amended noTiers downstreamFail clk90 freshStore okEvent
    "Bedrock Agent invocation failed" (by decide)
    (by rw [show get_api_key okEvent = "k1" from rfl, show clk90.now = 90 from rfl,
            gate_estimate_k1_90_fresh]; decide)
    rfl

/-! ### Claim C4 -/

/-- Claim C4 (counterexample): identity `k1`, fresh store, valid body, a
downstream collaborator that would succeed — but the `log_usage`
pipeline raises.  The failure is not swallowed: the handler answers 503
and the downstream call is never reached, although the very same request
without the usage fault completes with status 200. -/
theorem C4_counterexample :
    (lambda_handler usageFault noTiers downstreamOk clk90 freshStore okEvent).1 =
      error_response 503 "Service temporarily unavailable" none ∧
    (lambda_handler noFaults noTiers downstreamOk clk90 freshStore okEvent).1.statusCode =
      200 := by
  constructor
  · rw [lambda_handler_usage_fault noTiers downstreamOk clk90 freshStore okEvent
      (by decide)
      (by rw [show get_api_key okEvent = "k1" from rfl, show clk90.now = 90 from rfl,
              gate_estimate_k1_90_fresh]; decide)]
  · rw [lambda_handler_success noTiers downstreamOk clk90 freshStore okEvent
      { agentId := "agent-1", agentAliasId := "alias-1",
        sessionId := "sess-1", inputText := "hello" }
      { sessionId := "sess-1", response := "Hello world", agentId := "agent-1" }
      (by decide)
      (by rw [show get_api_key okEvent = "k1" from rfl, show clk90.now = 90 from rfl,
              gate_estimate_k1_90_fresh]; decide)
      rfl]

/-- Claim C4 (amended): a store failure while recording usage is NOT
swallowed: for an admitted request it aborts the invocation with a 503
response — regardless of the downstream collaborator, which is never
called — leaving the store exactly as the admission increment left it
(no usage counter is written). -/
theorem C4_amended (tiers : String → Option String)
    (downstream : AgentCall → Option (List String)) (clk : Clock)
    (store : Store) (event : Event)
    (hkey : get_api_key event ≠ "")
    (hallow : gate_estimate store (get_api_key event) clk.now ≤
      get_rate_limit_for_user tiers (get_api_key event)) :
    lambda_handler usageFault tiers downstream clk store event =
      (error_response 503 "Service temporarily unavailable" none,
       storeSet store (rate_key (get_api_key event) ((clk.now / 60 : Nat) : Int))
         (storeGetD store (rate_key (get_api_key event) ((clk.now / 60 : Nat) : Int)) + 1)) :=
  lambda_handler_usage_fault tiers downstream clk store event hkey hallow

/-- Witness for the amended Claim C4 at the concrete fixtures. -/
theorem C4_amended_witness :
    lambda_handler usageFault noTiers downstreamOk clk90 freshStore okEvent =
      (error_response 503 "Service temporarily unavailable" none,
       storeSet freshStore (rate_key (get_api_key okEvent) ((clk90.now / 60 : Nat) : Int))
         (storeGetD freshStore (rate_key (get_api_key okEvent) ((clk90.now / 60 : Nat) : Int)) + 1)) :=
  C4_amended noTiers downstreamOk clk90 freshStore okEvent (by decide)
    (by rw [show get_api_key okEvent = "k1" from rfl, show clk90.now = 90 from rfl,
            gate_estimate_k1_90_fresh]; decide)

/-! ### Claim C5 -/

/-- A request body with no `agentId` field. -/
def noAgentBody : EventBody :=
  { agentId := none, agentAliasId := none, sessionId := none, inputText := some "hi" }

/-- An event carrying identity `k1` and the `agentId`-less body. -/
def noAgentEvent : Event :=
  { x_api_key := some "k1", authorization := none, body := noAgentBody }

/-- Claim C5 (counterexample): a request whose body is missing the
required `agentId` is NOT rejected before store access: on a fresh
store the sliding-window counter is incremented to 1 and the usage
meter records the request (total-usage counter 1) before the
validation inside `invoke_bedrock_agent` raises, which surfaces as a
500 response. -/
theorem C5_counterexample :
    (lambda_handler noFaults noTiers downstreamOk clk90 freshStore noAgentEvent).1 =
      error_response 500 "Internal server error" none ∧
    storeGetD (lambda_handler noFaults noTiers downstreamOk clk90 freshStore noAgentEvent).2
      (rate_key "k1" 1) = 1 ∧
    storeGetD (lambda_handler noFaults noTiers downstreamOk clk90 freshStore noAgentEvent).2
      (usage_total_key "k1") = 1 := by
  rw [lambda_handler_downstream_error noTiers downstreamOk clk90 freshStore noAgentEvent
    "Bedrock Agent invocation failed: agentId and inputText are required" (by decide)
    (by rw [show get_api_key noAgentEvent = "k1" from rfl, show clk90.now = 90 from rfl,
            gate_estimate_k1_90_fresh]; decide)
    rfl]
  rw [show get_api_key noAgentEvent = "k1" from rfl,
      show ((clk90.now / 60 : Nat) : Int) = 1 from rfl]
  refine ⟨rfl, ?_, ?_⟩
  · rw [log_usage_other _ _ _ _ (rate_key_ne_usage_minute _ _ _ _)
      (rate_key_ne_usage_hour _ _ _ _) (rate_key_ne_usage_daily _ _ _ _)
      (rate_key_ne_usage_total _ _ _), storeGetD_set_self]
    decide
  · rw [log_usage_total,
        storeGetD_set_ne _ _ _ _ (Ne.symm (rate_key_ne_usage_total "k1" "k1" 1))]
    decide

/-- Claim C5 (amended): a request whose body is missing `agentId` or the
`inputText` string is rejected with a 500 response, but only AFTER the
counter store has been accessed: the sliding-window counter is
incremented (post-state = pre-state + 1) and the usage meter records
the request, because validation happens inside
`invoke_bedrock_agent`, after `check_rate_limit` and `log_usage`. -/
theorem C5_amended (tiers : String → Option String)
    (downstream : AgentCall → Option (List String)) (clk : Clock)
    (store : Store) (event : Event)
    (hkey : get_api_key event ≠ "")
    (hallow : gate_estimate store (get_api_key event) clk.now ≤
      get_rate_limit_for_user tiers (get_api_key event))
    (hbad : isFalsy event.body.agentId = true ∨ event.body.inputText.getD "" = "") :
    (lambda_handler noFaults tiers downstream clk store event).1 =
      error_response 500 "Internal server error" none ∧
    storeGetD (lambda_handler noFaults tiers downstream clk store event).2
        (rate_key (get_api_key event) ((clk.now / 60 : Nat) : Int)) =
      storeGetD store (rate_key (get_api_key event) ((clk.now / 60 : Nat) : Int)) + 1 ∧
    storeGetD (lambda_handler noFaults tiers downstream clk store event).2
        (usage_total_key (get_api_key event)) =
      storeGetD store (usage_total_key (get_api_key event)) + 1 := by
  have hfail : invoke_bedrock_agent clk.now downstream event.body =
      Except.error "Bedrock Agent invocation failed: agentId and inputText are required" := by
    rcases hbad with h | h
    · simp [invoke_bedrock_agent, h]
    · simp [invoke_bedrock_agent, h]
  rw [lambda_handler_downstream_error tiers downstream clk store event _ hkey hallow hfail]
  refine ⟨rfl, ?_, ?_⟩
  · rw [log_usage_other _ _ _ _ (rate_key_ne_usage_minute _ _ _ _)
      (rate_key_ne_usage_hour _ _ _ _) (rate_key_ne_usage_daily _ _ _ _)
      (rate_key_ne_usage_total _ _ _), storeGetD_set_self]
  · rw [log_usage_total,
        storeGetD_set_ne _ _ _ _
          (Ne.symm (rate_key_ne_usage_total (get_api_key event) (get_api_key event)
            ((clk.now / 60 : Nat) : Int)))]

/-- Witness for the amended Claim C5 at the concrete fixtures (body
missing `agentId`). -/
theorem C5_amended_witness :
    (lambda_handler noFaults noTiers downstreamOk clk90 freshStore noAgentEvent).1 =
      error_response 500 "Internal server error" none ∧
    storeGetD (lambda_handler noFaults noTiers downstreamOk clk90 freshStore noAgentEvent).2
        (rate_key (get_api_key noAgentEvent) ((clk90.now / 60 : Nat) : Int)) =
      storeGetD freshStore (rate_key (get_api_key noAgentEvent) ((clk90.now / 60 : Nat) : Int)) + 1 ∧
    storeGetD (lambda_handler noFaults noTiers downstreamOk clk90 freshStore noAgentEvent).2
        (usage_total_key (get_api_key noAgentEvent)) =
      storeGetD freshStore (usage_total_key (get_api_key noAgentEvent)) + 1 :=
  C5_amended noTiers downstreamOk clk90 freshStore noAgentEvent (by decide)
    (by rw [show get_api_key noAgentEvent = "k1" from rfl, show clk90.now = 90 from rfl,
            gate_estimate_k1_90_fresh]; decide)
    (Or.inl rfl)

/-! ### Claim C9 -/

/-- Claim C9 (counterexample): a request that fails downstream does NOT
get a compensating decrement matching its admission increment: on the
fresh store its net effect on the sliding-window counter is +1, not
zero. -/
theorem C9_counterexample :
    storeGetD (lambda_handler noFaults noTiers downstreamFail clk90 freshStore okEvent).2
        (rate_key "k1" 1) =
      storeGetD freshStore (rate_key "k1" 1) + 1 ∧
    storeGetD freshStore (rate_key "k1" 1) + 1 ≠ storeGetD freshStore (rate_key "k1" 1) := by
  constructor
  · rw [lambda_handler_downstream_error noTiers downstreamFail clk90 freshStore okEvent
      "Bedrock Agent invocation failed" (by decide)
      (by rw [show get_api_key okEvent = "k1" from rfl, show clk90.now = 90 from rfl,
              gate_estimate_k1_90_fresh]; decide)
      rfl]
    rw [show get_api_key okEvent = "k1" from rfl,
        show ((clk90.now / 60 : Nat) : Int) = 1 from rfl]
    rw [log_usage_other _ _ _ _ (rate_key_ne_usage_minute _ _ _ _)
      (rate_key_ne_usage_hour _ _ _ _) (rate_key_ne_usage_daily _ _ _ _)
      (rate_key_ne_usage_total _ _ _), storeGetD_set_self]
  · decide

/-- Claim C9 (amended): the net-zero property holds only for requests
rejected by the sliding-window gate — the rejection path applies exactly
one compensating decrement undoing its one admission increment, so the
counter ends at its pre-request value; a request that fails downstream
receives NO compensating decrement, and its net effect on the
sliding-window counter is +1. -/
theorem C9_amended :
    (∀ (tiers : String → Option String) (store : Store) (k : String) (t : Nat)
       (r : RateLimitResult) (s2 : Store),
       check_rate_limit noGateFaults tiers store k t = Except.ok (r, s2) →
       r.allowed = false →
       storeGetD s2 (rate_key k ((t / 60 : Nat) : Int)) =
         storeGetD store (rate_key k ((t / 60 : Nat) : Int))) ∧
    (∀ (tiers : String → Option String)
       (downstream : AgentCall → Option (List String)) (clk : Clock)
       (store : Store) (event : Event) (m : String),
       get_api_key event ≠ "" →
       gate_estimate store (get_api_key event) clk.now ≤
         get_rate_limit_for_user tiers (get_api_key event) →
       invoke_bedrock_agent clk.now downstream event.body = Except.error m →
       storeGetD (lambda_handler noFaults tiers downstream clk store event).2
           (rate_key (get_api_key event) ((clk.now / 60 : Nat) : Int)) =
         storeGetD store (rate_key (get_api_key event) ((clk.now / 60 : Nat) : Int)) + 1) := by
  constructor
  · intro tiers store k t r s2 h hr
    rw [check_rate_limit_noFaults_eq] at h
    split at h
    · rw [Except.ok.injEq, Prod.mk.injEq] at h
      rw [← h.2, storeGetD_set_self]
    · rw [Except.ok.injEq, Prod.mk.injEq] at h
      rw [← h.1] at hr
      simp at hr
  · intro tiers downstream clk store event m hkey hallow hfail
    rw [lambda_handler_downstream_error tiers downstream clk store event m hkey hallow hfail]
    rw [log_usage_other _ _ _ _ (rate_key_ne_usage_minute _ _ _ _)
      (rate_key_ne_usage_hour _ _ _ _) (rate_key_ne_usage_daily _ _ _ _)
      (rate_key_ne_usage_total _ _ _), storeGetD_set_self]

/-- Witness for the amended Claim C9: the rejected sixth request of
Scenario A nets zero on the counter (it stays at 5), while the failing
downstream run on the fresh store nets +1. -/
theorem C9_amended_witness :
    storeGetD
        (storeSet (storeSet (storeSet freshStore "rate_limit:{k1}:1" 5) "rate_limit:{k1}:1" 6)
          "rate_limit:{k1}:1" 5)
        (rate_key "k1" (((90 : Nat) / 60 : Nat) : Int)) =
      storeGetD (storeSet freshStore "rate_limit:{k1}:1" 5)
        (rate_key "k1" (((90 : Nat) / 60 : Nat) : Int)) ∧
    storeGetD (lambda_handler noFaults noTiers downstreamFail clk90 freshStore okEvent).2
        (rate_key (get_api_key okEvent) ((clk90.now / 60 : Nat) : Int)) =
      storeGetD freshStore (rate_key (get_api_key okEvent) ((clk90.now / 60 : Nat) : Int)) + 1 :=
  ⟨C9_amended.1 noTiers (storeSet freshStore "rate_limit:{k1}:1" 5) "k1" 90
      { allowed := false, remaining := 0, reset_time := 120 }
      (storeSet (storeSet (storeSet freshStore "rate_limit:{k1}:1" 5) "rate_limit:{k1}:1" 6)
        "rate_limit:{k1}:1" 5)
      (check_k1_90_rejected (storeSet freshStore "rate_limit:{k1}:1" 5) 5
        (by rw [storeGetD_set_self]) rfl (by norm_num))
      rfl,
   C9_amended.2 noTiers downstreamFail clk90 freshStore okEvent
      "Bedrock Agent invocation failed" (by decide)
      (by rw [show get_api_key okEvent = "k1" from rfl, show clk90.now = 90 from rfl,
              gate_estimate_k1_90_fresh]; decide)
      rfl⟩

/-! ### Claim C3 -/

/-- Claim C3 (settled against the spec-modelled dual-budget gate, which
has no implementation under `src/`): a single request whose token cost
exceeds the token-per-minute limit is rejected with the
token-budget-exceeded error — provided its request-count increment does
not itself overflow the RPM limit, in which case the rate error takes
precedence — and after the compensating decrement the tpm counter
equals its pre-request value. -/
theorem C3_token_budget_exceeded (store : Store) (k : String) (b : Int)
    (p : String) (R T : Int)
    (hcost : T < (token_cost p : Int))
    (hrpm : storeGetD store (rpm_key k b) + 1 ≤ R)
    (htpm : 0 ≤ storeGetD store (tpm_key k b)) :
    (check_dual_budget store k b (token_cost p : Int) R T).1 =
      BudgetDecision.tokenBudgetExceeded ∧
    storeGetD (check_dual_budget store k b (token_cost p : Int) R T).2 (tpm_key k b) =
      storeGetD store (tpm_key k b) := by
  have hne : tpm_key k b ≠ rpm_key k b := tpm_key_ne_rpm_key k k b b
  simp only [check_dual_budget, incr, incrby, decrby]
  rw [storeGetD_set_ne _ _ _ _ hne]
  rw [if_neg (not_lt.mpr hrpm)]
  rw [if_pos (show T < storeGetD store (tpm_key k b) + (token_cost p : Int) by omega)]
  refine ⟨rfl, ?_⟩
  simp only [storeGetD_set_self]
  omega

/-- The 44000-character prompt of Scenario B. -/
def bigPrompt : String := String.mk (List.replicate 44000 'a')

theorem bigPrompt_length : bigPrompt.length = 44000 := by
  rw [bigPrompt, String.length_mk, List.length_replicate]

/-- Scenario B's token cost: 44000 characters integer-divided by 4. -/
theorem token_cost_bigPrompt : token_cost bigPrompt = 11000 :=
  (token_cost.eq_1 bigPrompt).trans (by rw [bigPrompt_length])

/-- Witness for Claim C3 at Scenario B's numbers: fresh counters,
`RPM_LIMIT = 100`, `TPM_LIMIT = 10000`, a 44000-character prompt
(`tokenCost = 11000`): the decision is the token-budget rejection and
the tpm counter ends back at 0. -/
theorem C3_witness :
    token_cost bigPrompt = 11000 ∧
    (check_dual_budget freshStore "k1" 1 ((11000 : Nat) : Int) 100 10000).1 =
      BudgetDecision.tokenBudgetExceeded ∧
    storeGetD (check_dual_budget freshStore "k1" 1 ((11000 : Nat) : Int) 100 10000).2
      (tpm_key "k1" 1) = 0 := by
  have h := C3_token_budget_exceeded freshStore "k1" 1 bigPrompt 100 10000
    (by rw [token_cost_bigPrompt]; norm_num)
    (by norm_num [storeGetD, freshStore])
    (le_refl 0)
  rw [token_cost_bigPrompt] at h
  exact ⟨token_cost_bigPrompt, h.1, h.2.trans rfl⟩

/-! ### Claim C10 -/

/-- Claim C10: whenever `invoke_bedrock_agent` succeeds, the sessionId
echoed in the response body equals the sessionId passed to the
downstream call; that sessionId is the request's own when supplied and
otherwise the generated `session-<current-epoch-seconds>`; and when
`agentAliasId` is absent from the body the downstream call uses the
default alias `TSTALIASID`. -/
theorem C10_session_alias (now : Nat) (downstream : AgentCall → Option (List String))
    (body : EventBody) (c : AgentCall) (r : AgentResult)
    (h : invoke_bedrock_agent now downstream body = Except.ok (c, r)) :
    r.sessionId = c.sessionId ∧
    c.sessionId = body.sessionId.getD ("session-" ++ toString now) ∧
    (body.agentAliasId = none → c.agentAliasId = "TSTALIASID") := by
  simp only [invoke_bedrock_agent] at h
  split at h
  · exact absurd h (by simp)
  · split at h
    · exact absurd h (by simp)
    · rw [Except.ok.injEq, Prod.mk.injEq] at h
      obtain ⟨hc, hr⟩ := h
      subst hc
      subst hr
      refine ⟨rfl, rfl, fun ha => ?_⟩
      simp [ha]

/-- The Claim C10 fixture body: no alias, no session id. -/
def c10Body : EventBody :=
  { agentId := some "agent-9", agentAliasId := none, sessionId := none,
    inputText := some "hi" }

/-- The downstream call produced for `c10Body` at `now = 90`. -/
def c10Call : AgentCall :=
  { agentId := "agent-9", agentAliasId := "TSTALIASID",
    sessionId := "session-90", inputText := "hi" }

/-- The response produced for `c10Body` at `now = 90`. -/
def c10Resp : AgentResult :=
  { sessionId := "session-90", response := "Hello world", agentId := "agent-9" }

/-- Witness for Claim C10 at the concrete fixtures: the echoed and the
downstream sessionId agree, the generated id is `session-90`, and the
absent alias defaults to `TSTALIASID`. -/
theorem C10_witness :
    invoke_bedrock_agent 90 downstreamOk c10Body = Except.ok (c10Call, c10Resp) ∧
    c10Resp.sessionId = c10Call.sessionId ∧
    c10Call.sessionId = c10Body.sessionId.getD ("session-" ++ toString 90) ∧
    c10Call.agentAliasId = "TSTALIASID" :=
  have h : invoke_bedrock_agent 90 downstreamOk c10Body = Except.ok (c10Call, c10Resp) := rfl
  have hh := C10_session_alias 90 downstreamOk c10Body c10Call c10Resp h
  ⟨h, hh.1, hh.2.1, hh.2.2 rfl⟩

end AgentProxy
